import Mathlib

/-!
# Verification of the Citrix NetScaler version scanner

Shallow embedding of `scan-citrix-netscaler-version.py` (fox-it/citrix-netscaler-triage):
the version table loader, the timestamp-based version resolution, the version parser,
the advisory (CVE) predicates, and the per-target scan orchestration, together with
theorems settling the specification claims about them.

Python unbounded non-negative integers (timestamps, version components) are modelled
as `Nat`; Python `dict` insertion is modelled as an association list that preserves
insertion order and overwrites in place, matching CPython's documented dict semantics.
Fallible Python code (functions that `raise`/`assert`) is modelled with `Except`.
-/

/-! ## VersionTuple and tuple order

Embeds `class VersionTuple(NamedTuple)` with fields major, minor, build, patch.
Python `NamedTuple` comparison is lexicographic tuple comparison; `vtLt` embeds
the `<` used by the advisory predicates. -/

structure VersionTuple where
  major : Nat
  minor : Nat
  build : Nat
  patch : Nat
deriving DecidableEq, Repr

/-- Python tuple `<` on 4-tuples: field-wise lexicographic, major first. -/
def vtLt (a b : VersionTuple) : Bool :=
  decide (a.major < b.major) ||
    (a.major == b.major &&
      (decide (a.minor < b.minor) ||
        (a.minor == b.minor &&
          (decide (a.build < b.build) ||
            (a.build == b.build && decide (a.patch < b.patch))))))

/-! ## Branch-classification primitives (`is_fips_13_1`, `is_fips_12_1`, `is_eol`) -/

/-- Embeds `is_fips_13_1`: `(major, minor, build) == (13, 1, 37)`. -/
def is_fips_13_1 (v : VersionTuple) : Bool :=
  (v.major, v.minor, v.build) == (13, 1, 37)

/-- Embeds `is_fips_12_1`: `(major, minor, build) == (12, 1, 55)`. -/
def is_fips_12_1 (v : VersionTuple) : Bool :=
  (v.major, v.minor, v.build) == (12, 1, 55)

/-- Embeds `is_eol`: FIPS branches are exempt; then mainline 13.0 and
everything with major ≤ 12 is end-of-life. -/
def is_eol (v : VersionTuple) : Bool :=
  if is_fips_13_1 v || is_fips_12_1 v then false
  else if v.major == 13 && v.minor == 0 then true
  else if v.major ≤ 12 then true
  else false

/-! ## Advisory predicates -/

/-- Embeds `is_vuln_ctx693420` (CVE-2025-5349 / CVE-2025-5777). -/
def is_vuln_ctx693420 (v : VersionTuple) : Bool :=
  if is_fips_13_1 v then vtLt v ⟨13, 1, 37, 235⟩
  else if is_fips_12_1 v then vtLt v ⟨12, 1, 55, 328⟩
  else if v.major == 14 then vtLt v ⟨14, 1, 43, 56⟩
  else if v.major == 13 then vtLt v ⟨13, 1, 58, 32⟩
  else is_eol v

/-- Embeds `is_vuln_ctx694788` (CVE-2025-6543); the FIPS-12.1 branch is not affected. -/
def is_vuln_ctx694788 (v : VersionTuple) : Bool :=
  if is_fips_13_1 v then vtLt v ⟨13, 1, 37, 236⟩
  else if is_fips_12_1 v then false
  else if v.major == 14 then vtLt v ⟨14, 1, 47, 46⟩
  else if v.major == 13 then vtLt v ⟨13, 1, 59, 19⟩
  else is_eol v

/-- Embeds `is_vuln_ctx694938` (CVE-2025-7775 / CVE-2025-7776 / CVE-2025-8424). -/
def is_vuln_ctx694938 (v : VersionTuple) : Bool :=
  if is_fips_13_1 v then vtLt v ⟨13, 1, 37, 241⟩
  else if is_fips_12_1 v then vtLt v ⟨12, 1, 55, 330⟩
  else if v.major == 14 then vtLt v ⟨14, 1, 47, 48⟩
  else if v.major == 13 then vtLt v ⟨13, 1, 59, 22⟩
  else is_eol v

/-! ## Branch dispatch, made explicit

All three predicates dispatch on the same if-chain
(FIPS-13.1, then FIPS-12.1, then major==14, then major==13, then the EOL fallback);
`branchOf` extracts that shared dispatch, and `threshold…` records, per advisory,
the fixed-in tuple the predicate compares against on each branch (`none` on a branch
with no declared threshold: the unaffected FIPS-12.1 branch of CTX694788, and the
EOL fallback of every advisory). -/

inductive FirmwareBranch where
  | fips13_1
  | fips12_1
  | mainline14
  | mainline13
  | eolFallback
deriving DecidableEq, Repr

/-- The branch an advisory predicate classifies a tuple onto (shared if-chain). -/
def branchOf (v : VersionTuple) : FirmwareBranch :=
  if is_fips_13_1 v then .fips13_1
  else if is_fips_12_1 v then .fips12_1
  else if v.major == 14 then .mainline14
  else if v.major == 13 then .mainline13
  else .eolFallback

/-- Fixed-in thresholds of CTX693420, per branch of the dispatch. -/
def threshold693420 (v : VersionTuple) : Option VersionTuple :=
  if is_fips_13_1 v then some ⟨13, 1, 37, 235⟩
  else if is_fips_12_1 v then some ⟨12, 1, 55, 328⟩
  else if v.major == 14 then some ⟨14, 1, 43, 56⟩
  else if v.major == 13 then some ⟨13, 1, 58, 32⟩
  else none

/-- Fixed-in thresholds of CTX694788, per branch; FIPS-12.1 is unaffected (no threshold). -/
def threshold694788 (v : VersionTuple) : Option VersionTuple :=
  if is_fips_13_1 v then some ⟨13, 1, 37, 236⟩
  else if is_fips_12_1 v then none
  else if v.major == 14 then some ⟨14, 1, 47, 46⟩
  else if v.major == 13 then some ⟨13, 1, 59, 19⟩
  else none

/-- Fixed-in thresholds of CTX694938, per branch of the dispatch. -/
def threshold694938 (v : VersionTuple) : Option VersionTuple :=
  if is_fips_13_1 v then some ⟨13, 1, 37, 241⟩
  else if is_fips_12_1 v then some ⟨12, 1, 55, 330⟩
  else if v.major == 14 then some ⟨14, 1, 47, 48⟩
  else if v.major == 13 then some ⟨13, 1, 59, 22⟩
  else none

example : is_vuln_ctx694938 ⟨13, 1, 37, 240⟩ = true := by decide
example : is_vuln_ctx694938 ⟨13, 1, 37, 241⟩ = false := by decide
example : is_eol ⟨11, 1, 65, 20⟩ = true := by decide
example : is_eol ⟨13, 1, 37, 241⟩ = false := by decide
example : vtLt ⟨13, 1, 37, 240⟩ ⟨13, 1, 59, 22⟩ = true := by decide

/-! ## The version parser (`parse_version`)

`parse_version(version)` in the source: for a non-empty, non-`"unknown"` string it
replaces every `"."` by `"-"` (single-character replacement, i.e. a character-wise
map), splits on `"-"` (single-character separator), converts each part with `int`,
and unpacks into exactly four components; anything else raises `ValueError`.
The text manipulation is embedded on the underlying character list. -/

/-- Character-wise replacement: embeds Python `str.replace` for single-character
old/new arguments. -/
def replaceChar (old new : Char) (cs : List Char) : List Char :=
  cs.map (fun x => if x = old then new else x)

/-- Split on a single-character separator: embeds Python `str.split("-")`
(adjacent separators yield empty parts, as in Python). -/
def splitOnChar (sep : Char) : List Char → List (List Char)
  | [] => [[]]
  | x :: xs =>
    if x = sep then [] :: splitOnChar sep xs
    else
      match splitOnChar sep xs with
      | [] => [[x]]
      | p :: ps => (x :: p) :: ps

/-- Model of Python `int(s)` on the strings this program feeds it: a non-empty
all-digit string parses to its decimal value, anything else raises `ValueError`
(`none`). Python's extra tolerance for signs, surrounding whitespace and
underscores is not modelled; no input exercised here contains them. -/
def pyInt (cs : List Char) : Option Nat :=
  if cs ≠ [] ∧ cs.all (fun c => c.isDigit) then
    some (cs.foldl (fun acc c => 10 * acc + (c.toNat - 48)) 0)
  else none

/-- Embeds `parse_version`: guard against empty / `"unknown"`, normalize `.` to `-`,
split, convert the parts with `int`, require exactly four. -/
def parse_version (version : String) : Except String VersionTuple :=
  if version ≠ "" ∧ version ≠ "unknown" then
    match (splitOnChar '-' (replaceChar '.' '-' version.data)).mapM pyInt with
    | some [a, b, c, d] => .ok ⟨a, b, c, d⟩
    | _ => .error ("Invalid version components: " ++ version)
  else .error ("Invalid version: " ++ version)

/-- Decimal rendering of a natural number as a character list (most significant
digit first); `0` renders as `"0"`. -/
def natChars (n : Nat) : List Char :=
  if n = 0 then ['0']
  else (Nat.digits 10 n).reverse.map Nat.digitChar

/-- Modelled from the spec: the repository has no `format` function; the spec's
round-trip law `parse(format(t)) == t` refers to rendering the textual form
`MAJOR.MINOR-BUILD.PATCH` with the fields in decimal. -/
def format_version (v : VersionTuple) : String :=
  ⟨natChars v.major ++ '.' :: natChars v.minor ++
    '-' :: natChars v.build ++ '.' :: natChars v.patch⟩

example : parse_version "12.1-55.328" = .ok ⟨12, 1, 55, 328⟩ := rfl
example : (parse_version "unknown").isOk = false := by decide
example : (parse_version "").isOk = false := by decide
example : (parse_version "1.2-3").isOk = false := by decide

/-! ## The version table (`load_version_hashes`)

`load_version_hashes()` iterates over the rows of the embedded CSV; per row it
asserts that the version field is non-empty and that the ISO date column converts
to exactly the integer of the timestamp column, then inserts into the
timestamp→version dict and (when the hash is non-empty) the hash→version dict.
After the loop it asserts that the dict's keys are in sorted order.

A record is embedded with the date column already converted to epoch seconds
(`rdx_en_date`); the ISO-8601-text-to-epoch conversion itself is calendar
arithmetic outside this embedding. A Python `dict` is an association list in
which a repeated key overwrites the stored value in place (keeping its original
insertion position), and a new key is appended. -/

structure VersionRecord where
  rdx_en_date : Nat
  rdx_en_stamp : Nat
  vhash : String
  version : String
deriving DecidableEq, Repr

/-- Python `dict` assignment `d[k] = v`: overwrite in place, else append. -/
def dictInsert {α : Type} [BEq α] (d : List (α × String)) (k : α) (v : String) :
    List (α × String) :=
  if d.any (fun p => p.1 == k) then d.map (fun p => if p.1 == k then (k, v) else p)
  else d ++ [(k, v)]

/-- Python `stamps == sorted(stamps)`: the key list is non-decreasing. -/
def sortedNat : List Nat → Bool
  | [] => true
  | [_] => true
  | a :: b :: rest => a ≤ b && sortedNat (b :: rest)

/-- Loop of `load_version_hashes`: per-row asserts, then dict inserts; at the end
the sortedness assert over the timestamp keys. Returns the pair
(vhash_to_version, vstamp_to_version) on success. -/
def load_version_hashes_aux :
    List VersionRecord → List (String × String) → List (Nat × String) →
      Except String (List (String × String) × List (Nat × String))
  | [], hm, sm =>
    if sortedNat (sm.map (fun p => p.1)) then .ok (hm, sm) else .error "not sorted"
  | r :: rest, hm, sm =>
    if r.version = "" then .error "version not defined"
    else if r.rdx_en_date ≠ r.rdx_en_stamp then .error "timestamp mismatch"
    else
      load_version_hashes_aux rest
        (if r.vhash = "" then hm else dictInsert hm r.vhash r.version)
        (dictInsert sm r.rdx_en_stamp r.version)

/-- Embeds `load_version_hashes()`. -/
def load_version_hashes (ds : List VersionRecord) :
    Except String (List (String × String) × List (Nat × String)) :=
  load_version_hashes_aux ds [] []

/-- One CSV row; the ISO date column of every row of the embedded CSV converts to
exactly the epoch value of its timestamp column (the source asserts this on each
row at load time), so the transcription carries that epoch value once. -/
def vrow (stamp : Nat) (h v : String) : VersionRecord :=
  ⟨stamp, stamp, h, v⟩

/-- Transcription of `CITRIX_NETSCALER_VERSION_CSV` (all 219 data rows, in order):
timestamp column, vhash column, version column. -/
def citrix_netscaler_version_dataset : List VersionRecord := [
  vrow 1535167752 "" "12.1-49.23",
  vrow 1539712460 "" "12.1-49.37",
  vrow 1543395386 "26df0e65fba681faaeb333058a8b28bf" "12.1-50.28",
  vrow 1547833294 "d3b5c691a4cfcc6769da8dc4e40f511d" "12.1-50.31",
  vrow 1550038312 "1ffe249eccc42133689c145dc37d6372" "unknown",
  vrow 1551259802 "995a76005c128f4e89474af12ac0de66" "12.1-51.16",
  vrow 1553553428 "d2bd166fed66cdf035a0778a09fd688c" "12.1-51.19",
  vrow 1555671862 "489cadbd8055b1198c9c7fa9d34921b9" "unknown",
  vrow 1557769307 "86b4b2567b05dff896aae46d6e0765bc" "13.0-36.27",
  vrow 1559549823 "73217f4753a74300c0a2ad762c6f1e65" "unknown",
  vrow 1563208967 "dc8897f429a694d44934954b47118908" "unknown",
  vrow 1568102085 "43a8abf580ea09a5fa8aa1bd579280b9" "13.0-41.20",
  vrow 1568672574 "0705e646dc7f84d77e8e48561253be12" "unknown",
  vrow 1570444648 "09a78a600b4fc5b9f581347604f70c0e" "unknown",
  vrow 1570800276 "7116ed70ec000da9267a019728ed951e" "13.0-41.28",
  vrow 1572931127 "8c62b39f7068ea2f3d3f7d40860c0cd4" "12.1-55.13",
  vrow 1574967982 "fedb4ba86b5edcbc86081f2893dc9fdf" "13.0-47.22",
  vrow 1579181764 "" "11.1-63.15",
  vrow 1579524387 "02d30141fd053d5c3448bf04fbedb8d6" "12.1-55.18",
  vrow 1579525745 "fd96bc8977256003de05ed84270b90bb" "13.0-47.24",
  vrow 1582900076 "f787f9a8c05a502cd33f363e1e9934aa" "12.1-55.24",
  vrow 1584553276 "b5fae8db23061679923e4b2a9b6c7a82" "unknown",
  vrow 1584639643 "e79f3bbf822c1fede6b5a1a4b6035a41" "13.0-52.24",
  vrow 1585473032 "f2db014a3eb9790a19dfd71331e7f5d0" "12.1-56.22",
  vrow 1590994121 "fdf2235967556bad892fbf29ca69eefd" "13.0-58.30",
  vrow 1591024587 "" "12.0-63.21",
  vrow 1591064853 "" "11.1-64.14",
  vrow 1591729615 "4ecb5abf6e4b1655c07386a2c958597c" "12.1-57.18",
  vrow 1593707893 "dcb06155d51a0234e9d127658ef9f21f" "13.0-58.32",
  vrow 1595447367 "12c4901ecc3677aad06f678be49cb837" "13.0-61.48",
  vrow 1596099904 "bf898768ad1e1d477fa649711c72c6df" "13.0-61.48",
  vrow 1597416844 "a1494e2e09cb96e424c6c66512224941" "12.1-58.14",
  vrow 1598960821 "b1b38debf0e55c285c72465da3715034" "12.1-58.15",
  vrow 1598976896 "06fbfcf525e47b5538f856965154e28c" "13.0-64.35",
  vrow 1599733618 "" "11.1-65.12",
  vrow 1600737705 "7a0c8874e93395c5e4f1ef3e5e600a25" "12.1-59.16",
  vrow 1602086829 "a8e0eb4a1b3e157e0d3a5e57dc46fd35" "13.0-67.39",
  vrow 1602147782 "0aef7f8e9ea2b528aa2073f2875a28b8" "12.1-55.190",
  vrow 1604484881 "f1eb8548a4f1d4e565248d4db456fffe" "12.1-60.16",
  vrow 1605272190 "e2444db11d0fa5ed738aa568c2630704" "13.0-67.43",
  vrow 1606051758 "62eba0931b126b1558fea39fb466e588" "unknown",
  vrow 1606224413 "3a65afd164db6f39aa41f5729001d257" "13.0-67.43",
  vrow 1606972406 "9b545e2e4d153348bce08e3923cdfdc1" "13.0-71.40",
  vrow 1609009448 "25ad60e92a33cbb5dbd7cd8c8380360d" "13.0-71.44",
  vrow 1609011565 "0b516b768edfa45775c4be130c4b96b5" "12.1-60.19",
  vrow 1609729665 "b3deb35b8a990a71acca052fd1e6e6e1" "12.1-55.210",
  vrow 1609926222 "f0cc58ce7ec931656d9fcbfe50d37c4b" "unknown",
  vrow 1612272966 "83e486e7ee7eb07ab88328a51466ac28" "12.1-61.18",
  vrow 1613673469 "454d4ccdefa1d802a3f0ca474a2edd73" "13.0-76.29",
  vrow 1615224221 "08ff522057b9422863dbabb104c7cf4b" "12.1-61.19",
  vrow 1615281639 "648767678188e1567b7d15eee5714220" "13.0-76.31",
  vrow 1615477570 "ce5da251414abbb1b6aed6d6141ed205" "12.1-61.19",
  vrow 1617632002 "5e55889d93ff0f13c39bbebb4929a68e" "13.0-79.64",
  vrow 1620657482 "35389d54edd8a7ef46dadbd00c1bc5ac" "12.1-62.21",
  vrow 1620819371 "9f4514cd7d7559fa1fb28960b9a4c22d" "unknown",
  vrow 1621266971 "8e4425455b9da15bdcd9d574af653244" "12.1-62.23",
  vrow 1622313211 "" "11.1-65.20",
  vrow 1622469918 "73952bdeead9629442cd391d64c74d93" "13.0-82.41",
  vrow 1623352880 "25169dea48ef0f939d834468f3c626d2" "13.0-82.42",
  vrow 1623368345 "efb9d8994f9656e476e80f9b278c5dae" "12.1-62.25",
  vrow 1625590978 "affa5cd9f00480f144eda6334e03ec27" "unknown",
  vrow 1625622338 "e1ebdcea7585d24e9f380a1c52a77f5d" "12.1-62.27",
  vrow 1625638831 "" "11.1-65.22",
  vrow 1626453956 "eb3f8a7e3fd3f44b70c121101618b80d" "13.0-82.45",
  vrow 1631259090 "98a21b87cc25d486eb4189ab52cbc870" "13.1-4.43",
  vrow 1632751280 "c9e95a96410b8f8d4bde6fa31278900f" "13.0-83.27",
  vrow 1633526754 "394e3fa5ffce140c9dd4bedc38ddefa7" "13.1-9.52",
  vrow 1634039626 "435b27d8f59f4b64a6beccb39ce06237" "unknown",
  vrow 1634064549 "" "11.1-65.23",
  vrow 1634113449 "f3d4041188d723fec4547b1942ffea93" "12.1-63.22",
  vrow 1636641773 "158c7182df4973f1f5346e21e9d97a01" "13.1-4.44",
  vrow 1636650155 "a66c02f4d04a1bd32bfdcc1655c73466" "13.0-83.29",
  vrow 1636661207 "5cd6bd7d0aec5dd13a1afb603111733a" "12.1-63.23",
  vrow 1637163803 "645bded68068748e3314ad3e3ec8eb8f" "13.1-9.60",
  vrow 1637905276 "7277ec67fd822b7dae3399aa71786a0a" "13.1-9.107",
  vrow 1638969245 "e8ff095e03a3efcff7ed851bfb9141e5" "13.1-9.112",
  vrow 1639153035 "5112d5394de0cb5f6d474e032a708907" "13.1-12.50",
  vrow 1639162109 "3a316d2de5362e9f76280b3157f48d08" "13.0-84.10",
  vrow 1639730895 "bb71c656f6b4e0e1573c77c6536397c3" "13.1-12.103",
  vrow 1640166898 "ee44bd3bc047aead57bc000097e3d8aa" "12.1-63.24",
  vrow 1640170652 "13693866faf642734f0498eb45f73672" "unknown",
  vrow 1640186329 "2b46554c087d2d5516559e9b8bc1875d" "13.0-84.11",
  vrow 1640248123 "cf9d354b261231f6c6121058ba143af7" "13.1-12.51",
  vrow 1642646201 "c6bcd2f119d83d1de762c8c09b482546" "12.1-64.16",
  vrow 1643350935 "b3fb0319d5d2dad8c977b9986cc26bd8" "12.1-55.265",
  vrow 1645447769 "0f3a063431972186f453e07954f34eb8" "13.1-17.42",
  vrow 1645599730 "7364f85dc30b3d570015e04f90605854" "unknown",
  vrow 1646925462 "e42d7b3cf4a6938aecebdae491ba140c" "13.0-85.15",
  vrow 1648241342 "71ad6c771d99d846195b67c30bfb0433" "13.1-12.117",
  vrow 1648842091 "310ffb5a44db3a14ed623394a4049ff9" "unknown",
  vrow 1648963108 "2edf0f445b69b2e322e80dbc3f6f711c" "12.1-55.276",
  vrow 1649311904 "b4ac9c8852a04234f38d73d1d8238d37" "13.1-21.50",
  vrow 1650526474 "9f73637db0e0f987bf7825486bfb5efe" "12.1-55.278",
  vrow 1650537528 "c212a67672ef2da5a74ecd4e18c25835" "12.1-64.17",
  vrow 1650655111 "fbdc5fbaed59f858aad0a870ac4a779c" "12.1-65.15",
  vrow 1652100881 "e24224ce907593aaadd243831b51dbd7" "13.1-12.130",
  vrow 1652947813 "1884e7877a13a991b6d3fac01efbaf79" "13.0-85.19",
  vrow 1653569469 "853edb55246c138c530839e638089036" "13.1-24.38",
  vrow 1655226228 "7a45138b938a54ab056e0c35cf0ae56c" "13.0-86.17",
  vrow 1656510368 "4434db1ec24dd90750ea176f8eab213c" "12.1-65.17",
  vrow 1657097682 "469591a5ef8c69899320a319d5259922" "12.1-55.282",
  vrow 1657104103 "adc1f7c850ca3016b21776467691a767" "13.1-27.59",
  vrow 1657655579 "8f1767a6961f7b797d318d884dbb3a9c" "13.1-12.131",
  vrow 1659116392 "1f63988aa4d3f6d835704be50c56788a" "13.0-87.9",
  vrow 1661353021 "57d9f58db7576d6a194d7dd10888e354" "13.1-30.52",
  vrow 1662371872 "8c6bef3b4f16d6c9bfc2913aae2535d1" "13.1-30.103",
  vrow 1662553033 "f214d9aa6ff8f43fdb17ce81caac723f" "13.1-30.105",
  vrow 1663959215 "7afe87a42140b566a2115d1e232fdc07" "13.1-33.47",
  vrow 1664281882 "8cbccac1a96eee108ae3c85bf9ff845a" "13.1-30.108",
  vrow 1664513221 "212fa0e7b3a5ca540f156caceba507fe" "13.1-30.109",
  vrow 1664885015 "29adf2b509250b780bac083577c92b45" "13.1-30.111",
  vrow 1664899863 "c1b64cea1b80e973580a73b787828daf" "12.1-65.21",
  vrow 1665559544 "4d817946cef53571bc303373fd6b406b" "12.1-55.289",
  vrow 1665594088 "aff0ad8c8a961d7b838109a7ee532bcb" "13.1-33.49",
  vrow 1665767445 "37c10ac513599cf39997d52168432c0e" "13.0-88.12",
  vrow 1667231699 "27292ddd74e24a311e4269de9ecaa6e7" "13.0-88.13",
  vrow 1667233903 "5e939302a9d7db7e35e63a39af1c7bec" "13.1-33.51",
  vrow 1667452925 "6e7b2de88609868eeda0b1baf1d34a7e" "13.0-88.14",
  vrow 1667453909 "56672635f81a1ce1f34f828fef41d2fa" "13.1-33.52",
  vrow 1668140181 "8ecc8331379bc60f49712c9b25f276ea" "unknown",
  vrow 1668146431 "86c7421a034063574799dcd841ee88f0" "unknown",
  vrow 1668678940 "9bf6d5d3131495969deba0f850447947" "13.1-33.54",
  vrow 1668681438 "3bd7940b6425d9d4dba7e8b656d4ba65" "13.0-88.16",
  vrow 1669203751 "0d656200c32bb47c300b81e599260c42" "13.1-37.38",
  vrow 1669636505 "953fae977d4baedf39e83c9d1e134ef1" "12.1-55.291",
  vrow 1669808545 "f063b04477adc652c6dd502ac0c39a75" "12.1-65.25",
  vrow 1669891705 "c0c00b7caed367b1569574e4982294c5" "13.1-30.114",
  vrow 1671033279 "14c6a775edda324764a940cfd3da48cb" "13.0-89.7",
  vrow 1674582275 "c2b8537eb733844f1e0cc4f63210d016" "13.0-90.7",
  vrow 1677072689 "b4c220db03ea18bc2eebb40e9ad3f4f8" "13.1-42.47",
  vrow 1680677853 "0b2a3cb74b5c6adbe28827e8b76a9f64" "12.1-55.296",
  vrow 1681286714 "6925fba74320b9bfb960299f7c3e7cce" "13.1-45.61",
  vrow 1681754964 "cdb72bd7677da8af9942897256782c9b" "13.1-37.150",
  vrow 1681918478 "281b46a105662de06fb259293aa79f2a" "13.0-90.11",
  vrow 1682509375 "1487b55f253ea54b1d3603cc1212f164" "13.1-45.62",
  vrow 1682714340 "a6a783263968040a97e44d7cac55eda6" "12.1-65.35",
  vrow 1682844871 "d72c9f2af7ccded704862da7486cfef2" "13.1-45.63",
  vrow 1683866996 "" "13.0-91.12",
  vrow 1683876838 "14195083e08df261613408eb5cf3b212" "13.1-45.64",
  vrow 1684146224 "4d63b52cc99fe712f9be5e4795c854e9" "13.0-90.12",
  vrow 1685777750 "" "13.1-48.47",
  vrow 1688743976 "" "13.0-91.13",
  vrow 1688746510 "e72b4f05a103118667208783b57eee3b" "unknown",
  vrow 1688746627 "46d83b1a2981c1cfefe8d3063adf78f4" "13.1-37.159",
  vrow 1688747367 "28e592a607e8919cc6ca7dec63590e04" "12.1-55.297",
  vrow 1688954279 "" "13.1-49.101",
  vrow 1689014191 "" "13.1-49.13",
  vrow 1689059677 "" "13.1-49.102",
  vrow 1689827785 "" "13.1-49.106",
  vrow 1690503901 "" "14.1-4.42",
  vrow 1693379034 "" "13.0-92.18",
  vrow 1694760036 "" "14.1-8.50",
  vrow 1695273924 "" "13.0-92.19",
  vrow 1695277021 "" "13.1-49.15",
  vrow 1695284102 "e1aa8ba6d7e558d43f0369d9b81cbb1c" "12.1-65.37",
  vrow 1695316368 "155a75fb7efac3347e7362fd23083aa5" "12.1-55.300",
  vrow 1695817672 "" "13.1-37.164",
  vrow 1697614024 "" "13.1-50.23",
  vrow 1700677179 "" "14.1-12.30",
  vrow 1701886543 "" "14.1-8.120",
  vrow 1702035068 "" "14.1-12.34",
  vrow 1702062640 "" "13.1-51.14",
  vrow 1702548756 "" "13.0-92.21",
  vrow 1702625218 "" "13.1-51.15",
  vrow 1702631914 "" "14.1-12.35",
  vrow 1702886392 "f6beac6ccd073f5f7c1a64c4c7e24c7e" "12.1-55.302",
  vrow 1702908964 "9debca402a9fae56a0d5e0979f685cf2" "12.1-65.39",
  vrow 1704194696 "" "14.1-8.122",
  vrow 1704428153 "" "13.1-37.176",
  vrow 1707370491 "" "14.1-17.38",
  vrow 1709227868 "" "13.1-52.19",
  vrow 1713474810 "" "14.1-21.57",
  vrow 1714132594 "08604a97f08f6973502adb8ebf78e0b0" "12.1-55.304",
  vrow 1714542524 "fe1071e2b14a5b5016d3eb57ddcfc86d" "12.1-55.304",
  vrow 1715618728 "" "13.1-53.17",
  vrow 1715691351 "" "13.1-37.183",
  vrow 1717831730 "" "14.1-25.53",
  vrow 1719233060 "" "14.1-25.107",
  vrow 1720089675 "" "13.0-92.31",
  vrow 1720103560 "" "13.1-53.24",
  vrow 1720110688 "" "14.1-25.56",
  vrow 1720111773 "" "13.1-37.190",
  vrow 1720159658 "" "14.1-25.108",
  vrow 1720464791 "" "13.0-92.31",
  vrow 1721238815 "" "13.1-54.29",
  vrow 1723549420 "" "13.1-37.199",
  vrow 1728331888 "" "13.1-37.207",
  vrow 1728334533 "a7c411815373059b33b4d83bed6145a2" "12.1-55.321",
  vrow 1728642184 "" "14.1-29.72",
  vrow 1729543935 "0dd3f401dd33679f07e06961db10a298" "12.1-55.321",
  vrow 1729561034 "" "14.1-34.42",
  vrow 1729777429 "" "13.1-55.34",
  vrow 1730184925 "" "14.1-34.101",
  vrow 1730996230 "" "13.1-56.18",
  vrow 1732875663 "" "13.1-37.219",
  vrow 1734369608 "" "14.1-38.53",
  vrow 1737799969 "" "13.1-57.26",
  vrow 1739236765 "c624dcce8d3355d555021d2aac5f9715" "12.1-55.325",
  vrow 1740156084 "" "14.1-43.50",
  vrow 1741267150 "" "14.1-34.105",
  vrow 1741944779 "" "14.1-34.107",
  vrow 1743497009 "" "13.1-37.232",
  vrow 1744121299 "" "13.1-58.21",
  vrow 1744185164 "" "14.1-43.109",
  vrow 1747159096 "" "14.1-47.40",
  vrow 1747727322 "" "14.1-47.43",
  vrow 1747814734 "" "14.1-47.44",
  vrow 1749304395 "" "14.1-47.46",
  vrow 1749552827 "" "14.1-43.56",
  vrow 1749564145 "89929af92ff35a042d78e9010b7ec534" "12.1-55.328",
  vrow 1749572802 "" "13.1-37.235",
  vrow 1749588747 "" "13.1-58.32",
  vrow 1750134083 "f069136a9297a52b6d86a5de987d9323" "12.1-55.328",
  vrow 1750251851 "" "13.1-59.19",
  vrow 1755692465 "765c645f7af4a1ef5c11d464fafc6244" "12.1-55.330",
  vrow 1755692615 "" "14.1-47.48",
  vrow 1755693334 "" "13.1-37.241",
  vrow 1755693886 "" "13.1-59.22",
  vrow 1756174950 "a53b1af56a97019171ec39665fedc54a" "12.1-55.330"
]

/-- The module-level `vhash_to_version, vstamp_to_version = load_version_hashes()`. -/
def loaded_tables : List (String × String) × List (Nat × String) :=
  (load_version_hashes citrix_netscaler_version_dataset).toOption.getD ([], [])

def vstamp_to_version : List (Nat × String) := loaded_tables.2

def vhash_to_version : List (String × String) := loaded_tables.1

/-- Python `vstamp_to_version.get(stamp, "unknown")`. -/
def vstampGet (stamp : Nat) : String :=
  (vstamp_to_version.lookup stamp).getD "unknown"

/-! ## The per-target probe (`scan_netscaler_target`)

The function issues one streaming GET for `/vpn/js/rdx/core/lang/rdx_en.json.gz`
and reads the first chunk of at most 100 raw bytes. The network transport and the
TLS-certificate peek are I/O; the embedding takes the fetched chunk (a byte list)
and the extracted subject-alternative-names text as inputs and models everything
the function computes from them: the gzip signature + filename-marker check, the
little-endian 32-bit timestamp at offset 4, the `datetime` decoded from it
(modelled by its epoch value), the table lookup with the `"unknown"` default,
and the result record. A network exception escapes this function and is handled
by the caller (see `processTarget`). -/

structure NetScalerScanResult where
  target : String
  tls_names : Option String
  rdx_en_stamp : Option Nat
  rdx_en_dt : Option Nat
  version : Option String
  error : Option String
deriving DecidableEq, Repr

/-- The 4-byte prefix `b"\x1f\x8b\x08\x08"`: gzip member, deflate, FLG.FNAME set. -/
def gzipSignature : List Nat := [0x1f, 0x8b, 0x08, 0x08]

/-- The bytes of the literal filename marker `b"rdx_en.json"`. -/
def rdxMarker : List Nat :=
  [0x72, 0x64, 0x78, 0x5f, 0x65, 0x6e, 0x2e, 0x6a, 0x73, 0x6f, 0x6e]

/-- Python `needle in haystack` on bytes: contiguous-substring containment. -/
def bytesContain (needle : List Nat) : List Nat → Bool
  | [] => needle == []
  | x :: xs => needle.isPrefixOf (x :: xs) || bytesContain needle xs

/-- `data.startswith(b"\x1f\x8b\x08\x08") and b"rdx_en.json" in data`. -/
def chunkOk (data : List Nat) : Bool :=
  gzipSignature.isPrefixOf data && bytesContain rdxMarker data

/-- `int.from_bytes(bs, "little")`. -/
def leBytesToNat (bs : List Nat) : Nat :=
  bs.foldr (fun b acc => b + 256 * acc) 0

/-- `int.from_bytes(data[4:8], "little")` (a Python slice is tolerant of short data). -/
def extractStamp (data : List Nat) : Nat :=
  leBytesToNat ((data.drop 4).take 4)

/-- The little-endian 4-byte encoding of a 32-bit value. -/
def le32 (n : Nat) : List Nat :=
  [n % 256, n / 256 % 256, n / 65536 % 256, n / 16777216 % 256]

/-- Embeds `scan_netscaler_target` on its computational inputs: the fetched chunk
and the subject-alternative-names text extracted from the peer certificate. -/
def scan_netscaler_target (target : String) (tlsNames : Option String)
    (data : List Nat) : NetScalerScanResult :=
  if chunkOk data then
    let stamp := extractStamp data
    { target := target, tls_names := tlsNames, rdx_en_stamp := some stamp,
      rdx_en_dt := some stamp, version := some (vstampGet stamp), error := none }
  else
    { target := target, tls_names := tlsNames, rdx_en_stamp := none,
      rdx_en_dt := none, version := none,
      error := some "No valid data found, probably not a Citrix NetScaler" }

/-! ## The per-target loop of `main`

For each target, `main` calls `scan_netscaler_target`; an exception raised by the
probe is caught and replaced by a result record holding `str(exc)` as the error
and `None` everywhere else. Then it builds the per-CVE vulnerability map: it
parses `version.version` inside a `try`, and on `ValueError` it executes `pass`,
leaving the map empty; otherwise it evaluates the selected CVE checks. The
probe's outcome (normal result vs. raised exception text) is an input of the
embedding; output rendering (text/JSON/CSV) is outside the verified core. -/

/-- Names and predicates of `CVE_CHECKS`, in source order. -/
def CVE_CHECKS : List (String × (VersionTuple → Bool)) :=
  [("CVE-2025-5349", is_vuln_ctx693420),
   ("CVE-2025-5777", is_vuln_ctx693420),
   ("CVE-2025-6543", is_vuln_ctx694788),
   ("CVE-2025-7775", is_vuln_ctx694938),
   ("CVE-2025-7776", is_vuln_ctx694938),
   ("CVE-2025-8424", is_vuln_ctx694938)]

/-- `CVE_CHECKS[cve]`; `main` validates every selected CVE id against the dict's
keys before the loop, so the fallback branch is never reached there. -/
def cveCheck (cve : String) : VersionTuple → Bool :=
  (CVE_CHECKS.lookup cve).getD (fun _ => false)

/-- `parse_version(version.version)` where the field is optional:
`parse_version(None)` raises `ValueError` (`None` is falsy). -/
def parse_version_opt : Option String → Except String VersionTuple
  | some v => parse_version v
  | none => .error "Invalid version: None"

/-- What the probe did for one target: returned a result record, or raised an
exception whose `str` is the given text. -/
inductive ProbeOutcome where
  | returns (r : NetScalerScanResult)
  | raises (msg : String)
deriving Repr

/-- Everything one loop iteration of `main` records for one target:
the result record, the per-CVE map (in evaluation order), and the
aggregate `is_vulnerable` boolean. -/
structure ScanRow where
  result : NetScalerScanResult
  vulnerable_map : List (String × Bool)
  is_vulnerable : Bool
deriving DecidableEq, Repr

/-- One iteration of the target loop of `main`. -/
def processTarget (cves_to_check : List String) (target : String)
    (outcome : ProbeOutcome) : ScanRow :=
  let version : NetScalerScanResult :=
    match outcome with
    | .returns r => r
    | .raises msg =>
      { target := target, tls_names := none, rdx_en_stamp := none,
        rdx_en_dt := none, version := none, error := some msg }
  let vulnerable_map : List (String × Bool) :=
    match parse_version_opt version.version with
    | .error _ => []
    | .ok vtuple => cves_to_check.map (fun cve => (cve, cveCheck cve vtuple))
  { result := version, vulnerable_map := vulnerable_map,
    is_vulnerable := vulnerable_map.any (fun p => p.2) }

/-- The target loop of `main`: one `ScanRow` per target, in order. -/
def scanLoop (cves_to_check : List String)
    (targets : List (String × ProbeOutcome)) : List ScanRow :=
  targets.map (fun t => processTarget cves_to_check t.1 t.2)

/-! ## Auxiliary specification-side definitions used by the theorems -/

/-- The key sequence a Python dict develops: a repeated key stays at its original
position, a new key is appended. -/
def insKey (ks : List Nat) (k : Nat) : List Nat :=
  if k ∈ ks then ks else ks ++ [k]

/-- The dataset's distinct timestamps in first-occurrence order: exactly the key
order of the timestamp dict after loading. -/
def dedupStamps (ds : List VersionRecord) : List Nat :=
  ds.foldl (fun ks r => insKey ks r.rdx_en_stamp) []

/-- Whether a text decomposes into exactly four integer components after
normalizing both `.` and `-` separators (the decomposition performed by
`parse_version`). -/
def decomposes4 (s : String) : Bool :=
  match (splitOnChar '-' (replaceChar '.' '-' s.data)).mapM pyInt with
  | some l => l.length == 4
  | none => false

/-! # Theorems -/

/-! ## C1 — FIPS branch precedence for CTX694938 -/

/-- C1 (counterexample): the claim asserts that comparing `(13,1,37,240)` against
the mainline-13.x threshold `(13,1,59,22)` would return NOT vulnerable; in fact the
lexicographic comparison used by the mainline branch returns vulnerable (`true`)
there, since the build field 37 is below 59. -/
theorem ctx694938_mainline_compare_vulnerable_at_fips_tuple :
    vtLt ⟨13, 1, 37, 240⟩ ⟨13, 1, 59, 22⟩ = true := by decide

/-- C1 (amended): for CTX694938 the tuple `(13,1,37,240)` is classified on the
FIPS-13.1 branch (the triple equals `(13,1,37)`) and compared against the FIPS
fixed-in threshold `(13,1,37,241)`, so the predicate returns vulnerable (`true`);
the mainline-13.x comparison against `(13,1,59,22)` would also return vulnerable
at this tuple. -/
theorem ctx694938_fips_precedence :
    is_fips_13_1 ⟨13, 1, 37, 240⟩ = true ∧
    is_vuln_ctx694938 ⟨13, 1, 37, 240⟩ = vtLt ⟨13, 1, 37, 240⟩ ⟨13, 1, 37, 241⟩ ∧
    is_vuln_ctx694938 ⟨13, 1, 37, 240⟩ = true ∧
    vtLt ⟨13, 1, 37, 240⟩ ⟨13, 1, 59, 22⟩ = true := by decide

/-! ## C2 — characterization of `is_eol` -/

/-- C2: `is_eol` holds exactly on tuples that are not a recognized FIPS triple and
whose major.minor is 13.0 or whose major is at most 12; `(11,1,65,20)` and
`(13,0,92,21)` are EOL, and exact FIPS matches are never EOL at any patch level. -/
theorem is_eol_characterization :
    (∀ v : VersionTuple,
      (is_eol v = true ↔
        (¬((v.major, v.minor, v.build) = (13, 1, 37) ∨
            (v.major, v.minor, v.build) = (12, 1, 55)) ∧
          ((v.major = 13 ∧ v.minor = 0) ∨ v.major ≤ 12)))) ∧
    is_eol ⟨11, 1, 65, 20⟩ = true ∧
    is_eol ⟨13, 0, 92, 21⟩ = true ∧
    (∀ p : Nat, is_eol ⟨13, 1, 37, p⟩ = false) ∧
    (∀ p : Nat, is_eol ⟨12, 1, 55, p⟩ = false) := by
  refine ⟨?_, by decide, by decide, fun p => rfl, fun p => rfl⟩
  intro ⟨a, b, c, d⟩
  simp only [is_eol, is_fips_13_1, is_fips_12_1]
  by_cases h1 : (a, b, c) = (13, 1, 37) <;> by_cases h2 : (a, b, c) = (12, 1, 55) <;>
    simp_all [Prod.ext_iff] <;> omega

/-! ## C9 — CTX694788 declares FIPS-12.1 unaffected -/

/-- C9: for every patch level, `(12,1,55,patch)` is classified on the FIPS-12.1
branch of the shared dispatch (so it never reaches the EOL fallback), and
`is_vuln_ctx694788` returns `false` there. -/
theorem ctx694788_fips12_1_unaffected_all_patches :
    ∀ p : Nat,
      is_vuln_ctx694788 ⟨12, 1, 55, p⟩ = false ∧
      branchOf ⟨12, 1, 55, p⟩ = FirmwareBranch.fips12_1 := by
  intro p
  exact ⟨rfl, rfl⟩

/-! ## C10 — the probe result sets exactly one of version / error -/

/-- C10: a result returned by `scan_netscaler_target` has its version set exactly
when its error is not; on a valid chunk the version (possibly `"unknown"`), the
raw timestamp and the decoded time are all set and the error is `None`; otherwise
the error is set and version, timestamp and decoded time are all `None`. -/
theorem scan_result_version_error_exclusive :
    ∀ (t : String) (tls : Option String) (data : List Nat),
      ((scan_netscaler_target t tls data).version.isSome =
        !(scan_netscaler_target t tls data).error.isSome) ∧
      (chunkOk data = true →
        (scan_netscaler_target t tls data).version =
            some (vstampGet (extractStamp data)) ∧
          (scan_netscaler_target t tls data).error = none ∧
          (scan_netscaler_target t tls data).rdx_en_stamp = some (extractStamp data) ∧
          (scan_netscaler_target t tls data).rdx_en_dt = some (extractStamp data)) ∧
      (chunkOk data = false →
        (scan_netscaler_target t tls data).error =
            some "No valid data found, probably not a Citrix NetScaler" ∧
          (scan_netscaler_target t tls data).version = none ∧
          (scan_netscaler_target t tls data).rdx_en_stamp = none ∧
          (scan_netscaler_target t tls data).rdx_en_dt = none) := by
  intro t tls data
  by_cases h : chunkOk data = true
  · simp [scan_netscaler_target, h]
  · simp only [Bool.not_eq_true] at h
    simp [scan_netscaler_target, h]

/-- C10 (witness): both branches of the invariant exercised at concrete chunks —
a well-formed chunk with timestamp 0, and an empty chunk. -/
theorem scan_result_version_error_exclusive_witness :
    (scan_netscaler_target "host" none (gzipSignature ++ le32 0 ++ rdxMarker)).error =
        none ∧
      (scan_netscaler_target "host" none []).version = none :=
  ⟨((scan_result_version_error_exclusive "host" none
      (gzipSignature ++ le32 0 ++ rdxMarker)).2.1 (by decide)).2.1,
   ((scan_result_version_error_exclusive "host" none []).2.2 (by decide)).2.1⟩

/-! ## C8 — one result per target; a failing probe never aborts the batch -/

/-- C8: the scan loop yields exactly one row per target, in order; a target whose
probe raises yields a row with the exception text as its error, no version, no
timestamp and an empty advisory map, and the rows of the surrounding targets are
exactly the rows they get when the failing target is absent. -/
theorem scan_loop_one_result_per_target :
    ∀ (cves : List String) (xs ys : List (String × ProbeOutcome)) (t msg : String),
      msg ≠ "" →
      (∀ ts, (scanLoop cves ts).length = ts.length) ∧
      scanLoop cves (xs ++ (t, ProbeOutcome.raises msg) :: ys) =
        scanLoop cves xs ++
          ⟨⟨t, none, none, none, none, some msg⟩, [], false⟩ :: scanLoop cves ys ∧
      (processTarget cves t (ProbeOutcome.raises msg)).result.error = some msg ∧
      (processTarget cves t (ProbeOutcome.raises msg)).result.error ≠ some "" := by
  intro cves xs ys t msg hmsg
  refine ⟨fun ts => by simp [scanLoop], ?_, rfl, ?_⟩
  · simp [scanLoop]
    rfl
  · intro h
    exact hmsg (Option.some.inj h)

/-- C8 (witness): three targets where the second raises a connection timeout:
three rows come back; the middle row carries the error and an empty map, the
outer rows are those of the two-target scan without the failing target. -/
theorem scan_loop_one_result_per_target_witness :
    scanLoop ["CVE-2025-6543"]
        ([("a", ProbeOutcome.raises "boom")] ++
          ("b", ProbeOutcome.raises "connection timed out") ::
            [("c", ProbeOutcome.raises "refused")]) =
      scanLoop ["CVE-2025-6543"] [("a", ProbeOutcome.raises "boom")] ++
        ⟨⟨"b", none, none, none, none, some "connection timed out"⟩, [], false⟩ ::
          scanLoop ["CVE-2025-6543"] [("c", ProbeOutcome.raises "refused")] :=
  (scan_loop_one_result_per_target ["CVE-2025-6543"]
    [("a", ProbeOutcome.raises "boom")] [("c", ProbeOutcome.raises "refused")]
    "b" "connection timed out" (by decide)).2.1

/-! ## C4 — a parse failure in the orchestrator is silently skipped -/

/-- C4 (counterexample): a target whose probe succeeded with the unparseable
resolved version text `"1.2-3"` (neither `"unknown"` nor absent) yields a row
whose result record is unchanged — its error is still `None` — and whose advisory
map is empty: nothing in the target's result surfaces the parse failure, because
the loop's `except ValueError: pass` swallows it. -/
theorem parse_failure_not_surfaced :
    processTarget ["CVE-2025-6543"] "host"
        (ProbeOutcome.returns ⟨"host", none, some 7, some 7, some "1.2-3", none⟩) =
      ⟨⟨"host", none, some 7, some 7, some "1.2-3", none⟩, [], false⟩ ∧
    (parse_version "1.2-3").isOk = false := by
  constructor
  · rfl
  · decide

/-- C4 (amended): whenever the probe returned a result whose version text fails to
parse — including a non-`"unknown"`, non-absent text — the loop body leaves the
result record exactly as the probe produced it (in particular with its error field
unchanged), records an empty advisory map and a `false` aggregate: the failure is
silently skipped, not surfaced as an engine-internal error. -/
theorem parse_failure_silent_skip :
    ∀ (cves : List String) (t : String) (r : NetScalerScanResult) (v : String),
      r.version = some v → (parse_version v).isOk = false →
      processTarget cves t (ProbeOutcome.returns r) = ⟨r, [], false⟩ := by
  intro cves t r v hv hp
  cases hparse : parse_version v with
  | ok vt =>
    rw [hparse] at hp
    simp [Except.isOk, Except.toBool] at hp
  | error e =>
    unfold processTarget
    simp only [hv, parse_version_opt, hparse]
    rfl

/-- C4 (witness): the amended statement at a concrete probe result carrying the
version text `"1.2-3"`. -/
theorem parse_failure_silent_skip_witness :
    processTarget [] "h2"
        (ProbeOutcome.returns ⟨"h2", some "cn", some 9, some 9, some "1.2-3", none⟩) =
      ⟨⟨"h2", some "cn", some 9, some 9, some "1.2-3", none⟩, [], false⟩ :=
  parse_failure_silent_skip [] "h2" _ "1.2-3" rfl (by decide)

/-! ## C3 — vulnerable iff strictly below the branch's fixed-in threshold -/

/-- C3: on every branch with a declared fixed-in threshold (FIPS-13.1, FIPS-12.1
where affected, mainline 14, mainline 13), each advisory predicate returns `true`
exactly when the tuple is strictly below the threshold in lexicographic order;
and each predicate is `false` at its threshold and `true` at the threshold with
the patch field decreased by one. -/
theorem advisory_thresholds_strict_lex_order :
    (∀ v T, threshold693420 v = some T → is_vuln_ctx693420 v = vtLt v T) ∧
    (∀ v T, threshold694788 v = some T → is_vuln_ctx694788 v = vtLt v T) ∧
    (∀ v T, threshold694938 v = some T → is_vuln_ctx694938 v = vtLt v T) ∧
    (is_vuln_ctx693420 ⟨13, 1, 37, 235⟩ = false ∧ is_vuln_ctx693420 ⟨13, 1, 37, 234⟩ = true ∧
     is_vuln_ctx693420 ⟨12, 1, 55, 328⟩ = false ∧ is_vuln_ctx693420 ⟨12, 1, 55, 327⟩ = true ∧
     is_vuln_ctx693420 ⟨14, 1, 43, 56⟩ = false ∧ is_vuln_ctx693420 ⟨14, 1, 43, 55⟩ = true ∧
     is_vuln_ctx693420 ⟨13, 1, 58, 32⟩ = false ∧ is_vuln_ctx693420 ⟨13, 1, 58, 31⟩ = true) ∧
    (is_vuln_ctx694788 ⟨13, 1, 37, 236⟩ = false ∧ is_vuln_ctx694788 ⟨13, 1, 37, 235⟩ = true ∧
     is_vuln_ctx694788 ⟨14, 1, 47, 46⟩ = false ∧ is_vuln_ctx694788 ⟨14, 1, 47, 45⟩ = true ∧
     is_vuln_ctx694788 ⟨13, 1, 59, 19⟩ = false ∧ is_vuln_ctx694788 ⟨13, 1, 59, 18⟩ = true) ∧
    (is_vuln_ctx694938 ⟨13, 1, 37, 241⟩ = false ∧ is_vuln_ctx694938 ⟨13, 1, 37, 240⟩ = true ∧
     is_vuln_ctx694938 ⟨12, 1, 55, 330⟩ = false ∧ is_vuln_ctx694938 ⟨12, 1, 55, 329⟩ = true ∧
     is_vuln_ctx694938 ⟨14, 1, 47, 48⟩ = false ∧ is_vuln_ctx694938 ⟨14, 1, 47, 47⟩ = true ∧
     is_vuln_ctx694938 ⟨13, 1, 59, 22⟩ = false ∧ is_vuln_ctx694938 ⟨13, 1, 59, 21⟩ = true) := by
  refine ⟨?_, ?_, ?_, by decide, by decide, by decide⟩ <;>
    intro v T h <;>
    by_cases h1 : is_fips_13_1 v <;> by_cases h2 : is_fips_12_1 v <;>
    by_cases h3 : v.major = 14 <;> by_cases h4 : v.major = 13 <;>
    simp_all [threshold693420, threshold694788, threshold694938,
      is_vuln_ctx693420, is_vuln_ctx694788, is_vuln_ctx694938]

/-- C3 (witness): the threshold comparisons exercised on each advisory at a tuple
of its FIPS-13.1, mainline-14 and mainline-13 branches respectively. -/
theorem advisory_thresholds_strict_lex_order_witness :
    is_vuln_ctx693420 ⟨13, 1, 37, 100⟩ = vtLt ⟨13, 1, 37, 100⟩ ⟨13, 1, 37, 235⟩ ∧
    is_vuln_ctx694788 ⟨14, 1, 0, 0⟩ = vtLt ⟨14, 1, 0, 0⟩ ⟨14, 1, 47, 46⟩ ∧
    is_vuln_ctx694938 ⟨13, 2, 0, 0⟩ = vtLt ⟨13, 2, 0, 0⟩ ⟨13, 1, 59, 22⟩ :=
  ⟨advisory_thresholds_strict_lex_order.1 _ _ (by decide),
   advisory_thresholds_strict_lex_order.2.1 _ _ (by decide),
   advisory_thresholds_strict_lex_order.2.2.1 _ _ (by decide)⟩

/-! ## C5 — what the loader's integrity checks do and do not reject -/

/-- The keys of a dict after an insert: unchanged when the key is present
(overwrite in place), appended otherwise. -/
theorem dictInsert_keys (sm : List (Nat × String)) (k : Nat) (v : String) :
    (dictInsert sm k v).map (fun p => p.1) = insKey (sm.map (fun p => p.1)) k := by
  unfold dictInsert insKey
  by_cases h : sm.any (fun p => p.1 == k)
  · have hk : k ∈ sm.map (fun p => p.1) := by
      rcases List.any_eq_true.mp h with ⟨p, hp, he⟩
      exact List.mem_map.mpr ⟨p, hp, (beq_iff_eq.mp he)⟩
    rw [if_pos h, if_pos hk, List.map_map]
    apply List.map_congr_left
    intro p _
    by_cases hpk : p.1 = k
    · simp [hpk]
    · simp [hpk]
  · have hk : k ∉ sm.map (fun p => p.1) := by
      intro hmem
      rcases List.mem_map.mp hmem with ⟨p, hp, he⟩
      exact h (List.any_eq_true.mpr ⟨p, hp, beq_iff_eq.mpr he⟩)
    rw [if_neg h, if_neg hk, List.map_append]
    rfl

/-- Invariant of the loader loop: it succeeds exactly when every remaining row
passes the per-row asserts and the final key order (the accumulated distinct
timestamps in first-occurrence order) is non-decreasing. -/
theorem load_aux_isOk (ds : List VersionRecord) :
    ∀ (hm : List (String × String)) (sm : List (Nat × String)),
      (load_version_hashes_aux ds hm sm).isOk = true ↔
        ((∀ r ∈ ds, r.version ≠ "" ∧ r.rdx_en_date = r.rdx_en_stamp) ∧
          sortedNat (ds.foldl (fun ks r => insKey ks r.rdx_en_stamp)
            (sm.map (fun p => p.1))) = true) := by
  induction ds with
  | nil =>
    intro hm sm
    simp only [load_version_hashes_aux, List.foldl_nil]
    by_cases h : sortedNat (sm.map (fun p => p.1)) = true
    · simp [h, Except.isOk, Except.toBool]
    · simp [h, Except.isOk, Except.toBool]
  | cons r rest ih =>
    intro hm sm
    simp only [load_version_hashes_aux]
    by_cases h1 : r.version = ""
    · simp [h1, Except.isOk, Except.toBool]
    · by_cases h2 : r.rdx_en_date = r.rdx_en_stamp
      · rw [if_neg h1, if_neg (by simpa using h2)]
        rw [ih]
        rw [dictInsert_keys]
        simp [h1, h2]
      · rw [if_neg h1, if_pos (by simpa using h2)]
        constructor
        · intro hfalse
          simp [Except.isOk, Except.toBool] at hfalse
        · rintro ⟨hall, -⟩
          exact absurd (hall r (List.mem_cons_self r rest)).2 h2

/-- C5 (counterexample): a dataset containing a duplicated release timestamp — so
its timestamps are NOT strictly increasing — loads successfully: the second row
overwrites the first dict entry, the deduplicated key list `[100]` is sorted, and
no assert fires. The claim that load fails on every such dataset is false. -/
theorem load_duplicate_timestamp_accepted :
    (load_version_hashes
        [⟨100, 100, "", "13.1-58.32"⟩, ⟨100, 100, "", "13.1-58.31"⟩]).isOk = true := by
  decide

/-- C5 (amended): loading fails at load time — never at query time, since lookups
only exist on a successfully returned table — exactly when some record has an
empty version field, or some record's date column disagrees with its timestamp
column, or the dataset's distinct timestamps in first-occurrence order are not
non-decreasing. A dataset whose only anomaly is a duplicated (or repeated
earlier) timestamp is NOT rejected: dict overwriting hides it from the
sortedness assert. -/
theorem load_integrity_characterization (ds : List VersionRecord) :
    (load_version_hashes ds).isOk = true ↔
      ((∀ r ∈ ds, r.version ≠ "" ∧ r.rdx_en_date = r.rdx_en_stamp) ∧
        sortedNat (dedupStamps ds) = true) := by
  unfold load_version_hashes dedupStamps
  simpa using load_aux_isOk ds [] []

/-- C5 (witness): a well-formed two-row dataset loads successfully, via the
characterization applied right-to-left. -/
theorem load_integrity_characterization_witness :
    (load_version_hashes
        [⟨1, 1, "", "13.1-58.32"⟩, ⟨2, 2, "h", "14.1-47.48"⟩]).isOk = true :=
  (load_integrity_characterization _).mpr (by decide)

/-! ## C7 — the parser round-trip and its failure modes -/

-- Facts about decimal digit characters and `natChars`.
theorem digitChar_isDigit {d : Nat} (h : d < 10) : (Nat.digitChar d).isDigit = true := by
  interval_cases d <;> decide

theorem digitChar_toNat {d : Nat} (h : d < 10) : (Nat.digitChar d).toNat = 48 + d := by
  interval_cases d <;> decide

theorem natChars_ne_nil (n : Nat) : natChars n ≠ [] := by
  unfold natChars
  by_cases h : n = 0
  · simp [h]
  · simp [h, Nat.digits_ne_nil_iff_ne_zero.mpr h]

theorem natChars_all_digit (n : Nat) : ∀ c ∈ natChars n, c.isDigit = true := by
  unfold natChars
  by_cases h : n = 0
  · simp [h]
  · simp only [h, if_neg]
    intro c hc
    rcases List.mem_map.mp (by simpa using hc) with ⟨d, hd, rfl⟩
    exact digitChar_isDigit (Nat.digits_lt_base (by norm_num) hd)

theorem foldl_digits_acc (ds : List Nat) :
    ∀ acc : Nat, ds.foldl (fun a d => 10 * a + d) acc =
      Nat.ofDigits 10 ds.reverse + acc * 10 ^ ds.length := by
  induction ds with
  | nil => intro acc; simp
  | cons d rest ih =>
    intro acc
    simp only [List.foldl_cons, List.reverse_cons, List.length_cons, ih]
    rw [Nat.ofDigits_append]
    simp [Nat.ofDigits_singleton, pow_succ]
    ring

theorem pyInt_natChars (n : Nat) : pyInt (natChars n) = some n := by
  by_cases h : n = 0
  · subst h; decide
  · have hd : ∀ d ∈ (Nat.digits 10 n).reverse, d < 10 := fun d hdm =>
      Nat.digits_lt_base (by norm_num) (List.mem_reverse.mp hdm)
    unfold pyInt
    rw [if_pos ⟨natChars_ne_nil n, by
      rw [List.all_eq_true]; exact fun c hc => natChars_all_digit n c hc⟩]
    congr 1
    unfold natChars
    rw [if_neg h]
    have hfold : ((Nat.digits 10 n).reverse.map Nat.digitChar).foldl
        (fun acc c => 10 * acc + (c.toNat - 48)) 0 =
        (Nat.digits 10 n).reverse.foldl (fun a d => 10 * a + d) 0 := by
      have : ∀ (l : List Nat), (∀ d ∈ l, d < 10) → ∀ acc : Nat,
          (l.map Nat.digitChar).foldl (fun acc c => 10 * acc + (c.toNat - 48)) acc =
            l.foldl (fun a d => 10 * a + d) acc := by
        intro l
        induction l with
        | nil => intro _ acc; rfl
        | cons d rest ih2 =>
          intro hl acc
          simp only [List.map_cons, List.foldl_cons]
          rw [digitChar_toNat (hl d (List.mem_cons_self d rest))]
          rw [ih2 (fun x hx => hl x (List.mem_cons_of_mem d hx))]
          congr 1
          omega
      exact this _ hd 0
    rw [hfold, foldl_digits_acc]
    simp [Nat.ofDigits_digits]

theorem replaceChar_append (o n : Char) (xs ys : List Char) :
    replaceChar o n (xs ++ ys) = replaceChar o n xs ++ replaceChar o n ys :=
  List.map_append _ xs ys

theorem replaceChar_cons (o n x : Char) (xs : List Char) :
    replaceChar o n (x :: xs) = (if x = o then n else x) :: replaceChar o n xs := rfl

theorem replaceChar_of_not_mem {old : Char} (new : Char) {cs : List Char}
    (h : old ∉ cs) : replaceChar old new cs = cs := by
  unfold replaceChar
  conv_rhs => rw [(List.map_id cs).symm]
  apply List.map_congr_left
  intro x hx
  have hxo : ¬x = old := by
    intro he
    subst he
    exact h hx
  rw [if_neg hxo]
  rfl

theorem splitOnChar_sepFree {sep : Char} {cs : List Char} (h : sep ∉ cs) :
    splitOnChar sep cs = [cs] := by
  induction cs with
  | nil => rfl
  | cons x xs ih =>
    have hx : x ≠ sep := fun he => h (he ▸ List.mem_cons_self x xs)
    have hxs : sep ∉ xs := fun hm => h (List.mem_cons_of_mem x hm)
    simp only [splitOnChar, if_neg hx, ih hxs]

theorem splitOnChar_append_sep {sep : Char} {xs : List Char} (rest : List Char)
    (h : sep ∉ xs) :
    splitOnChar sep (xs ++ sep :: rest) = xs :: splitOnChar sep rest := by
  induction xs with
  | nil => simp [splitOnChar]
  | cons x xs2 ih =>
    have hx : x ≠ sep := fun he => h (he ▸ List.mem_cons_self x xs2)
    have hxs : sep ∉ xs2 := fun hm => h (List.mem_cons_of_mem x hm)
    have ihh := ih hxs
    simp only [List.cons_append, splitOnChar, if_neg hx, List.append_eq, ihh]

theorem digits_not_sep (n : Nat) {c : Char} (hc : c.isDigit = false) :
    c ∉ natChars n := by
  intro hm
  rw [natChars_all_digit n c hm] at hc
  cases hc

theorem parse_format_roundtrip_core (t : VersionTuple) :
    parse_version (format_version t) = .ok t := by
  obtain ⟨a, b, c, d⟩ := t
  have hdotA : '.' ∉ natChars a := digits_not_sep a (by decide)
  have hdotB : '.' ∉ natChars b := digits_not_sep b (by decide)
  have hdotC : '.' ∉ natChars c := digits_not_sep c (by decide)
  have hdotD : '.' ∉ natChars d := digits_not_sep d (by decide)
  have hdshA : '-' ∉ natChars a := digits_not_sep a (by decide)
  have hdshB : '-' ∉ natChars b := digits_not_sep b (by decide)
  have hdshC : '-' ∉ natChars c := digits_not_sep c (by decide)
  have hdshD : '-' ∉ natChars d := digits_not_sep d (by decide)
  have hdata : (format_version ⟨a, b, c, d⟩).data =
      natChars a ++ '.' :: (natChars b ++ '-' :: (natChars c ++ '.' :: natChars d)) := by
    have hraw : (format_version ⟨a, b, c, d⟩).data =
        ((natChars a ++ '.' :: natChars b) ++ '-' :: natChars c) ++ '.' :: natChars d := rfl
    rw [hraw]
    simp [List.cons_append, List.append_assoc]
  have hne : format_version ⟨a, b, c, d⟩ ≠ "" := by
    intro he
    have hnil : (format_version ⟨a, b, c, d⟩).data = [] := by rw [he]
    rw [hdata] at hnil
    rcases List.exists_cons_of_ne_nil (natChars_ne_nil a) with ⟨x, xs, hx⟩
    simp [hx] at hnil
  have hnu : format_version ⟨a, b, c, d⟩ ≠ "unknown" := by
    intro he
    have hdu : (format_version ⟨a, b, c, d⟩).data = "unknown".data := by rw [he]
    rw [hdata] at hdu
    rcases List.exists_cons_of_ne_nil (natChars_ne_nil a) with ⟨x, xs, hx⟩
    rw [hx] at hdu
    simp only [List.cons_append] at hdu
    have hxu : x = 'u' := ((List.cons.injEq _ _ _ _).mp hdu).1
    have hxd : x.isDigit = true := natChars_all_digit a x (hx ▸ List.mem_cons_self x xs)
    rw [hxu] at hxd
    exact absurd hxd (by decide)
  have hrepl : replaceChar '.' '-' (format_version ⟨a, b, c, d⟩).data =
      natChars a ++ '-' :: (natChars b ++ '-' :: (natChars c ++ '-' :: natChars d)) := by
    rw [hdata]
    rw [replaceChar_append, replaceChar_cons, replaceChar_append, replaceChar_cons,
      replaceChar_append, replaceChar_cons,
      replaceChar_of_not_mem '-' hdotA, replaceChar_of_not_mem '-' hdotB,
      replaceChar_of_not_mem '-' hdotC, replaceChar_of_not_mem '-' hdotD]
    norm_num
  have hsplit : splitOnChar '-' (natChars a ++ '-' :: (natChars b ++
      '-' :: (natChars c ++ '-' :: natChars d))) =
      [natChars a, natChars b, natChars c, natChars d] := by
    rw [splitOnChar_append_sep _ hdshA, splitOnChar_append_sep _ hdshB,
      splitOnChar_append_sep _ hdshC, splitOnChar_sepFree hdshD]
  unfold parse_version
  rw [if_pos ⟨hne, hnu⟩, hrepl, hsplit]
  simp [List.mapM, List.mapM.loop, pyInt_natChars]

theorem parse_fail_not4 (s : String) (h : decomposes4 s = false) :
    (parse_version s).isOk = false := by
  unfold parse_version
  by_cases hg : s ≠ "" ∧ s ≠ "unknown"
  · rw [if_pos hg]
    unfold decomposes4 at h
    cases hm : (splitOnChar '-' (replaceChar '.' '-' s.data)).mapM pyInt with
    | none => rfl
    | some l =>
      rcases l with _ | ⟨a, _ | ⟨b, _ | ⟨c, _ | ⟨d, _ | ⟨e, l⟩⟩⟩⟩⟩ <;>
        simp_all [Except.isOk, Except.toBool]
  · rw [if_neg hg]
    rfl

/-- C7: `parse_version (format_version t) = ok t` for every 4-field tuple of
non-negative integers; parsing fails on the sentinel `"unknown"`, on the empty
string, and on any text that does not decompose into exactly four integer
components after normalizing both `.` and `-` separators (e.g. `"1.2-3"`). -/
theorem parse_format_roundtrip_and_failures :
    (∀ t : VersionTuple, parse_version (format_version t) = .ok t) ∧
    (parse_version "unknown").isOk = false ∧
    (parse_version "").isOk = false ∧
    (parse_version "1.2-3").isOk = false ∧
    (∀ s : String, decomposes4 s = false → (parse_version s).isOk = false) :=
  ⟨parse_format_roundtrip_core, by decide, by decide, by decide, parse_fail_not4⟩

/-- C7 (witness): the failure clause applied at the concrete text `"12.1"`,
which normalizes and splits into two components. -/
theorem parse_format_roundtrip_and_failures_witness :
    (parse_version "12.1").isOk = false :=
  parse_format_roundtrip_and_failures.2.2.2.2 "12.1" (by decide)

/-! ## C6 — resolution through the table, defaulting to the sentinel -/

/-- The version field of a probe result is the table lookup of the extracted
timestamp (with the `"unknown"` default) when the chunk check passes, else absent. -/
theorem scan_version_formula (t : String) (tls : Option String) (data : List Nat) :
    (scan_netscaler_target t tls data).version =
      if chunkOk data then some (vstampGet (extractStamp data)) else none := by
  unfold scan_netscaler_target
  split <;> rfl

set_option maxRecDepth 1000000 in
/-- C6: for a response chunk beginning with bytes `1F 8B 08 08` followed by the
little-endian 32-bit encoding of 1750134083 and containing the filename marker
`rdx_en.json`, the resolved version is exactly `"12.1-55.328"`; for the same
well-formed chunk with timestamp 0 (absent from the table), it is exactly
`"unknown"`. -/
theorem resolve_timestamp_known_and_unknown :
    ∀ (target : String) (tls : Option String),
      (scan_netscaler_target target tls
          (gzipSignature ++ le32 1750134083 ++ rdxMarker)).version =
        some "12.1-55.328" ∧
      (scan_netscaler_target target tls
          (gzipSignature ++ le32 0 ++ rdxMarker)).version = some "unknown" := by
  intro target tls
  constructor
  · rw [scan_version_formula]
    decide
  · rw [scan_version_formula]
    decide
